import Mathlib

/-!
Verification of `netlify/functions/gemini-proxy.js` from lp-roadmap-app.

Shallow embedding: JavaScript values reaching the handler are modelled by
the inductive `Js`; JS property access (which throws a TypeError on
`null`/`undefined` receivers) is `jsGetProp`/`jsGetIdx` returning
`Except String Js` where the error carries the TypeError message.
`JSON.parse` of the inbound body is modelled by its result
(`Except String Js`, error on invalid JSON); `JSON.stringify` is
`stringifyJs`.  The `fetch` call is a function parameter
`upstream : Request → FetchOutcome`; `console.error` output is collected
in a `logs` list.  The handler itself returns `Except String HandlerResult`:
`Except.error` models an exception escaping the handler (the async function
rejecting), which happens exactly where the source has no try/catch.
-/

namespace GeminiProxy

/-- JavaScript runtime values, as far as the proxy manipulates them.
Numbers are modelled as integers (no claim involves fractional values). -/
inductive Js where
  | undefined
  | null
  | bool (b : Bool)
  | num (n : Int)
  | str (s : String)
  | arr (elems : List Js)
  | obj (fields : List (String × Js))

/-- JS truthiness (`!v` is `!truthy v`).  `NaN` does not arise since numbers
are modelled as integers. -/
def Js.truthy : Js → Bool
  | .undefined => false
  | .null => false
  | .bool b => b
  | .num n => n != 0
  | .str s => s != ""
  | .arr _ => true
  | .obj _ => true

/-- TypeError message for a property read on `undefined` or `null`. -/
def readErrMsg (recv k : String) : String :=
  "Cannot read properties of " ++ recv ++ " (reading " ++ k ++ ")"

/-- Lookup of a key in a JS object literal (first binding wins; the objects
built by `JSON.parse` carry each key once). -/
def lookupField : List (String × Js) → String → Js
  | [], _ => .undefined
  | (k, v) :: fs, key => if k = key then v else lookupField fs key

/-- Named-property read on a non-`null`, non-`undefined` value: objects look
up the key, arrays and strings expose `length`, primitives box to objects
with no own properties, so any other read gives `undefined`. -/
def jsProp : Js → String → Js
  | .obj fs, key => lookupField fs key
  | .arr xs, key => if key = "length" then .num (Int.ofNat xs.length) else .undefined
  | .str s, key => if key = "length" then .num (Int.ofNat s.length) else .undefined
  | _, _ => .undefined

/-- Named-property read `v.k`, throwing (as `Except.error` with the
TypeError message) when the receiver is `undefined` or `null`. -/
def jsGetProp (v : Js) (k : String) : Except String Js :=
  match v with
  | .undefined => .error (readErrMsg "undefined" k)
  | .null => .error (readErrMsg "null" k)
  | _ => .ok (jsProp v k)

/-- Index read on a non-`null`, non-`undefined` value: arrays index their
elements, strings their characters, objects look up the decimal key;
out-of-range or primitive reads give `undefined`. -/
def jsIdx : Js → Nat → Js
  | .arr xs, i => (xs.get? i).getD .undefined
  | .str s, i => if h : i < s.length then .str (String.singleton (s.toList.get ⟨i, by simpa using h⟩)) else .undefined
  | .obj fs, i => lookupField fs (toString i)
  | _, _ => .undefined

/-- Index read `v[i]`, throwing when the receiver is `undefined` or `null`. -/
def jsGetIdx (v : Js) (i : Nat) : Except String Js :=
  match v with
  | .undefined => .error (readErrMsg "undefined" (toString i))
  | .null => .error (readErrMsg "null" (toString i))
  | _ => .ok (jsIdx v i)

/-- JS numeric coercion used by `>`; `none` is `NaN`.  String numerals are
modelled for integers; object-to-primitive coercion is not modelled and
yields `NaN` (no claim exercises it). -/
def jsToNumber : Js → Option Int
  | .undefined => none
  | .null => some 0
  | .bool b => some (if b then 1 else 0)
  | .num n => some n
  | .str s => if s.trim = "" then some 0 else s.trim.toInt?
  | .arr _ => none
  | .obj _ => none

/-- JS comparison `v > 0` (false when the coercion gives `NaN`). -/
def jsGtZero (v : Js) : Bool :=
  match jsToNumber v with
  | none => false
  | some n => decide (0 < n)

/-- JS `a || b`. -/
def jsOr (a b : Js) : Js := if a.truthy then a else b

/-- Hex digit for `\u00XX` escapes. -/
def hexDigit (n : Nat) : Char :=
  if n < 10 then Char.ofNat (48 + n) else Char.ofNat (87 + n)

/-- JSON string escaping of one character, as `JSON.stringify` performs it. -/
def jsonEscapeChar (c : Char) : String :=
  if c = '"' then "\\\""
  else if c = '\\' then "\\\\"
  else if c = '\n' then "\\n"
  else if c = '\r' then "\\r"
  else if c = '\t' then "\\t"
  else if c = '\x08' then "\\b"
  else if c = '\x0c' then "\\f"
  else if c.toNat < 32 then "\\u00" ++ String.mk [hexDigit (c.toNat / 16), hexDigit (c.toNat % 16)]
  else String.singleton c

/-- JSON quoting of a string. -/
def jsonQuote (s : String) : String :=
  "\"" ++ String.join (s.toList.map jsonEscapeChar) ++ "\""

mutual

/-- `JSON.stringify`: `none` models the `undefined` result on a bare
`undefined` argument; inside arrays `undefined` prints as `null`, inside
objects such fields are dropped. -/
def stringifyJs : Js → Option String
  | .undefined => none
  | .null => some "null"
  | .bool b => some (if b then "true" else "false")
  | .num n => some (toString n)
  | .str s => some (jsonQuote s)
  | .arr xs => some ("[" ++ String.intercalate "," (stringifyElems xs) ++ "]")
  | .obj fs => some ("\x7b" ++ String.intercalate "," (stringifyFields fs) ++ "\x7d")

/-- Array elements under `JSON.stringify`. -/
def stringifyElems : List Js → List String
  | [] => []
  | v :: vs => ((stringifyJs v).getD "null") :: stringifyElems vs

/-- Object fields under `JSON.stringify` (fields whose value stringifies to
`undefined` are dropped). -/
def stringifyFields : List (String × Js) → List String
  | [] => []
  | (k, v) :: fs =>
    match stringifyJs v with
    | none => stringifyFields fs
    | some sv => (jsonQuote k ++ ":" ++ sv) :: stringifyFields fs

end

/-- Inbound Netlify event: the HTTP method and the result of
`JSON.parse(event.body)` (`Except.error` when the body is not valid JSON;
the source parses inside its own try/catch, line 27). -/
structure Event where
  httpMethod : String
  bodyJson : Except String Js

/-- Server-side configuration: `process.env.GEMINI_API_KEY`
(`none` when the variable is unset). -/
structure Env where
  geminiApiKey : Option String

/-- The outbound `fetch` request built by the handler.  `payload` is the
value passed through `JSON.stringify` into the request body. -/
structure Request where
  url : String
  method : String
  headers : List (String × String)
  payload : Js

/-- Outcome of the awaited `fetch`: a transport error (the rejection whose
`message` the catch block reads), or an HTTP response carrying its status,
its body as text (`response.text()`), and the result of `response.json()`
(`Except.error` with the SyntaxError message when the body is not JSON). -/
inductive FetchOutcome where
  | netErr (message : String)
  | resp (status : Nat) (text : String) (json : Except String Js)

/-- The handler's returned response object. -/
structure Response where
  statusCode : Nat
  headers : List (String × String)
  body : String

/-- Full observable behaviour of one invocation: the response, the outbound
call made (if any), and the `console.error` lines. -/
structure HandlerResult where
  response : Response
  call : Option Request
  logs : List String

/-- Body of the 405 response (source line 22). -/
def methodNotAllowedBody : String := "Method Not Allowed"

/-- Body of the invalid-JSON 400 response (source line 29). -/
def invalidJsonBody : String := "Bad Request: Invalid JSON."

/-- Body of the missing-prompt 400 response (source line 35). -/
def promptRequiredBody : String := "Bad Request: \"prompt\" is required."

/-- Body of the missing-configuration 500 response (source line 44). -/
def configMissingBody : String := "Internal Server Error: API configuration missing."

/-- Server-side log line when the key is missing (source line 43). -/
def configMissingLog : String := "GEMINI_API_KEY is not set in Netlify environment."

/-- Body of the empty-candidates 500 response (source line 83). -/
def noCandidatesBody : String := "Gemini API returned no candidates."

/-- Upstream URL up to the embedded key (source line 47). -/
def apiUrlPrefix : String :=
  "https://generativelanguage.googleapis.com/v1beta/models/gemini-2.5-flash-preview-09-2025:generateContent?key="

/-- The upstream payload of source lines 50-55:
`contents: [ \x7b parts: [ \x7b text: prompt \x7d ] \x7d ]` and
`systemInstruction.parts[0].text = systemPrompt || ""`. -/
def mkPayload (prompt systemPrompt : Js) : Js :=
  .obj [("contents", .arr [.obj [("parts", .arr [.obj [("text", prompt)]])]]),
        ("systemInstruction", .obj [("parts", .arr [.obj [("text", jsOr systemPrompt (.str ""))]])])]

/-- Source line 74, inside the try block:
`result.candidates && result.candidates.length > 0` guarding
`result.candidates[0].content.parts[0].text`.  Returns `some text` when the
guard holds and the chain of reads succeeds, `none` when the guard fails
(the no-candidates branch), and an error when a read throws. -/
def extractFirstText (result : Js) : Except String (Option Js) :=
  match jsGetProp result "candidates" with
  | .error e => .error e
  | .ok candidates =>
    if candidates.truthy then
      match jsGetProp candidates "length" with
      | .error e => .error e
      | .ok len =>
        if jsGtZero len then
          match jsGetIdx candidates 0 with
          | .error e => .error e
          | .ok c0 =>
            match jsGetProp c0 "content" with
            | .error e => .error e
            | .ok content =>
              match jsGetProp content "parts" with
              | .error e => .error e
              | .ok parts =>
                match jsGetIdx parts 0 with
                | .error e => .error e
                | .ok p0 =>
                  match jsGetProp p0 "text" with
                  | .error e => .error e
                  | .ok text => .ok (some text)
        else .ok none
    else .ok none

/-- The 500 result produced by the catch block (source lines 86-89). -/
def caughtResult (req : Request) (msg : String) : HandlerResult :=
  ⟨⟨500, [], "Internal Server Error: " ++ msg⟩, some req,
   ["Error calling Gemini API: " ++ msg]⟩

/-- The try block around the upstream call (source lines 58-89), given the
request and the outcome of `fetch`. -/
def callUpstream (req : Request) (outcome : FetchOutcome) : HandlerResult :=
  match outcome with
  | .netErr msg => caughtResult req msg
  | .resp status text json =>
    if 200 ≤ status ∧ status < 300 then
      match json with
      | .error msg => caughtResult req msg
      | .ok result =>
        match extractFirstText result with
        | .error msg => caughtResult req msg
        | .ok none => ⟨⟨500, [], noCandidatesBody⟩, some req, []⟩
        | .ok (some text) =>
          ⟨⟨200, [("Content-Type", "application/json")],
            (stringifyJs (.obj [("text", text)])).getD "undefined"⟩, some req, []⟩
    else
      ⟨⟨status, [], "Gemini API Error: " ++ text⟩, some req,
       ["Gemini API error: " ++ toString status ++ " " ++ text]⟩

/-- The handler of gemini-proxy.js.  `upstream` stands for `fetch`; the
`Except.error` results model the TypeError thrown by
`const \x7b prompt, systemPrompt \x7d = body` (line 32) when the parsed body
is `null`, the only point outside any try/catch where the source can throw. -/
def handler (env : Env) (upstream : Request → FetchOutcome) (event : Event) :
    Except String HandlerResult :=
  if event.httpMethod ≠ "POST" then
    .ok ⟨⟨405, [], methodNotAllowedBody⟩, none, []⟩
  else
    match event.bodyJson with
    | .error _ => .ok ⟨⟨400, [], invalidJsonBody⟩, none, []⟩
    | .ok body =>
      match jsGetProp body "prompt" with
      | .error e => .error e
      | .ok prompt =>
        match jsGetProp body "systemPrompt" with
        | .error e => .error e
        | .ok systemPrompt =>
          if ¬ prompt.truthy then
            .ok ⟨⟨400, [], promptRequiredBody⟩, none, []⟩
          else
            match env.geminiApiKey with
            | none => .ok ⟨⟨500, [], configMissingBody⟩, none, [configMissingLog]⟩
            | some apiKey =>
              if apiKey = "" then
                .ok ⟨⟨500, [], configMissingBody⟩, none, [configMissingLog]⟩
              else
                let req : Request := ⟨apiUrlPrefix ++ apiKey, "POST",
                  [("Content-Type", "application/json")], mkPayload prompt systemPrompt⟩
                .ok (callUpstream req (upstream req))

/-- Character-list prefix test (`leadsWith pat xs` holds when `pat` starts `xs`). -/
def leadsWith : List Char → List Char → Bool
  | [], _ => true
  | _ :: _, [] => false
  | a :: as, b :: bs => a = b && leadsWith as bs

/-- Character-list substring test (`hasSub pat xs` holds when `pat` occurs
contiguously in `xs`). -/
def hasSub (pat : List Char) : List Char → Bool
  | [] => pat.isEmpty
  | c :: cs => leadsWith pat (c :: cs) || hasSub pat cs

/-- Substring test on strings, used to state the credential-leak contract. -/
def containsStr (hay needle : String) : Bool :=
  hasSub needle.toList hay.toList

/-! Helper lemmas about `JSON.stringify` of the success body. -/

theorem intercalate_single (s a : String) : String.intercalate s [a] = a := by
  simp [String.intercalate, String.intercalate.go]

theorem jsonQuote_text : jsonQuote "text" = "\"text\"" := rfl

theorem stringify_text_str (t : String) :
    stringifyJs (Js.obj [("text", Js.str t)]) = some ("\x7b\"text\":" ++ jsonQuote t ++ "\x7d") := by
  simp [stringifyJs, stringifyFields, jsonQuote_text, intercalate_single, ← String.append_assoc]

theorem jsGtZero_succ (n : Nat) : jsGtZero (Js.num ((n : Int) + 1)) = true := by
  simp [jsGtZero, jsToNumber]

/-- C1: for every inbound POST request whose valid JSON body has a truthy
`prompt`, when the credential is present and the upstream responds with
status 200 and a JSON body whose first candidate's first content part has
text `t`, the handler returns status 200 with body
`\x7b"text":<JSON encoding of t>\x7d`. -/
theorem C1_success_returns_first_candidate_text
    (upstream : Request → FetchOutcome) (body prompt systemPrompt : Js)
    (apiKey uptext t : String) (pf : List (String × Js)) (rest ps : List Js)
    (hp : jsGetProp body "prompt" = .ok prompt)
    (hs : jsGetProp body "systemPrompt" = .ok systemPrompt)
    (ht : prompt.truthy = true)
    (hk : apiKey ≠ "")
    (hup : ∀ q, upstream q = .resp 200 uptext (.ok (Js.obj [("candidates",
        Js.arr (Js.obj [("content", Js.obj [("parts",
          Js.arr (Js.obj (("text", Js.str t) :: pf) :: ps))])] :: rest))]))) :
    ∃ r, handler ⟨some apiKey⟩ upstream ⟨"POST", .ok body⟩ = .ok r ∧
      r.response.statusCode = 200 ∧
      r.response.body = "\x7b\"text\":" ++ jsonQuote t ++ "\x7d" := by
  refine ⟨⟨⟨200, [("Content-Type", "application/json")],
      "\x7b\"text\":" ++ jsonQuote t ++ "\x7d"⟩,
    some ⟨apiUrlPrefix ++ apiKey, "POST", [("Content-Type", "application/json")],
      mkPayload prompt systemPrompt⟩, []⟩, ?_, rfl, rfl⟩
  simp only [handler, hp, hs, ht, hk, hup]
  simp [callUpstream, extractFirstText, jsGetProp, jsProp, lookupField, jsGetIdx, jsIdx,
    Js.truthy, jsGtZero_succ, stringify_text_str]

/-- Witness for C1: the spec's round trip with `prompt = "hello"`,
`systemPrompt` omitted, and a stubbed upstream whose single candidate has
text "world". -/
theorem C1_witness :
    ∃ r, handler ⟨some "k"⟩
        (fun _ => .resp 200 "" (.ok (Js.obj [("candidates",
          Js.arr [Js.obj [("content", Js.obj [("parts",
            Js.arr [Js.obj [("text", Js.str "world")]])])]])])))
        ⟨"POST", .ok (Js.obj [("prompt", Js.str "hello")])⟩ = .ok r ∧
      r.response.statusCode = 200 ∧
      r.response.body = "\x7b\"text\":\"world\"\x7d" := by
  have h := C1_success_returns_first_candidate_text
    (fun _ => .resp 200 "" (.ok (Js.obj [("candidates",
      Js.arr [Js.obj [("content", Js.obj [("parts",
        Js.arr [Js.obj [("text", Js.str "world")]])])]])])))
    (Js.obj [("prompt", Js.str "hello")]) (Js.str "hello") Js.undefined
    "k" "" "world" [] [] [] rfl rfl rfl (by decide) (fun _ => rfl)
  simpa using h

/-- C2: on a POST with a truthy prompt and the credential absent, the
handler answers 500 with the generic configuration message; the specific
absence message goes only to the server-side log and is not a substring of
the response body. -/
theorem C2_missing_credential_no_leak
    (upstream : Request → FetchOutcome) (body prompt systemPrompt : Js)
    (hp : jsGetProp body "prompt" = .ok prompt)
    (hs : jsGetProp body "systemPrompt" = .ok systemPrompt)
    (ht : prompt.truthy = true) :
    handler ⟨none⟩ upstream ⟨"POST", .ok body⟩ =
      .ok ⟨⟨500, [], configMissingBody⟩, none, [configMissingLog]⟩ ∧
    containsStr configMissingBody configMissingLog = false := by
  constructor
  · simp only [handler, hp, hs, ht]
    simp
  · decide

/-- Witness for C2 at a concrete request with the credential unset. -/
theorem C2_witness :
    handler ⟨none⟩ (fun _ => .netErr "") ⟨"POST", .ok (Js.obj [("prompt", Js.str "hello")])⟩ =
      .ok ⟨⟨500, [], configMissingBody⟩, none, [configMissingLog]⟩ ∧
    containsStr configMissingBody configMissingLog = false :=
  C2_missing_credential_no_leak (fun _ => .netErr "")
    (Js.obj [("prompt", Js.str "hello")]) (Js.str "hello") Js.undefined rfl rfl rfl

theorem callUpstream_call (req : Request) (o : FetchOutcome) :
    (callUpstream req o).call = some req := by
  cases o with
  | netErr m => rfl
  | resp st tx js =>
    simp only [callUpstream]
    split
    · cases js with
      | error e => rfl
      | ok result =>
        cases h : extractFirstText result with
        | error m => simp [h, caughtResult]
        | ok op => cases op <;> simp [h]
    · rfl

/-- Counterexample to C3 as stated: with `systemPrompt` provided but falsy
(`false`), the payload's system-instruction part holds the empty string,
not the provided `systemPrompt`. -/
theorem C3_counterexample :
    handler ⟨some "k"⟩ (fun _ => .netErr "boom")
        ⟨"POST", .ok (Js.obj [("prompt", Js.str "hi"), ("systemPrompt", Js.bool false)])⟩ =
      .ok ⟨⟨500, [], "Internal Server Error: boom"⟩,
        some ⟨apiUrlPrefix ++ "k", "POST", [("Content-Type", "application/json")],
          Js.obj [("contents", Js.arr [Js.obj [("parts", Js.arr [Js.obj [("text", Js.str "hi")]])]]),
                  ("systemInstruction", Js.obj [("parts", Js.arr [Js.obj [("text", Js.str "")]])])]⟩,
        ["Error calling Gemini API: boom"]⟩ ∧
    Js.str "" ≠ Js.bool false :=
  ⟨rfl, fun h => Js.noConfusion h⟩

/-- C3 (amended): when the outbound call is reached, the payload is exactly
a contents list with one entry whose single part holds the prompt, and a
systemInstruction whose single part holds `systemPrompt` if truthy and the
empty string otherwise (in particular when it is not provided). -/
theorem C3_payload_shape
    (upstream : Request → FetchOutcome) (body prompt systemPrompt : Js) (apiKey : String)
    (hp : jsGetProp body "prompt" = .ok prompt)
    (hs : jsGetProp body "systemPrompt" = .ok systemPrompt)
    (ht : prompt.truthy = true)
    (hk : apiKey ≠ "") :
    ∃ r, handler ⟨some apiKey⟩ upstream ⟨"POST", .ok body⟩ = .ok r ∧
      r.call = some ⟨apiUrlPrefix ++ apiKey, "POST", [("Content-Type", "application/json")],
        Js.obj [("contents", Js.arr [Js.obj [("parts", Js.arr [Js.obj [("text", prompt)]])]]),
                ("systemInstruction", Js.obj [("parts", Js.arr [Js.obj [("text",
                  (if systemPrompt.truthy then systemPrompt else Js.str ""))]])])]⟩ := by
  refine ⟨callUpstream ⟨apiUrlPrefix ++ apiKey, "POST", [("Content-Type", "application/json")],
    mkPayload prompt systemPrompt⟩ (upstream ⟨apiUrlPrefix ++ apiKey, "POST",
      [("Content-Type", "application/json")], mkPayload prompt systemPrompt⟩), ?_, ?_⟩
  · simp only [handler, hp, hs, ht, hk]
    simp
  · rw [callUpstream_call]
    simp [mkPayload, jsOr]

/-- Witness for C3 (amended) at a concrete request with `systemPrompt`
omitted. -/
theorem C3_witness :
    ∃ r, handler ⟨some "k"⟩ (fun _ => .netErr "boom")
        ⟨"POST", .ok (Js.obj [("prompt", Js.str "hi")])⟩ = .ok r ∧
      r.call = some ⟨apiUrlPrefix ++ "k", "POST", [("Content-Type", "application/json")],
        Js.obj [("contents", Js.arr [Js.obj [("parts", Js.arr [Js.obj [("text", Js.str "hi")]])]]),
                ("systemInstruction", Js.obj [("parts", Js.arr [Js.obj [("text",
                  (if (Js.undefined).truthy then Js.undefined else Js.str ""))]])])]⟩ :=
  C3_payload_shape (fun _ => .netErr "boom") (Js.obj [("prompt", Js.str "hi")])
    (Js.str "hi") Js.undefined "k" rfl rfl rfl (by decide)

theorem leadsWith_refl (xs : List Char) : leadsWith xs xs = true := by
  induction xs with
  | nil => rfl
  | cons c cs ih => simp [leadsWith, ih]

theorem hasSub_self (n : List Char) : hasSub n n = true := by
  cases n with
  | nil => rfl
  | cons c cs => simp [hasSub, leadsWith_refl]

theorem hasSub_append (n p : List Char) : hasSub n (p ++ n) = true := by
  induction p with
  | nil => simpa using hasSub_self n
  | cons c cs ih => simp [hasSub, ih]

theorem containsStr_append (p b : String) : containsStr (p ++ b) b = true := by
  simp [containsStr, String.toList, String.data_append, hasSub_append]

/-- C4: a non-success upstream status `N` with body text `B` is passed
through: the handler answers with status `N` and a message embedding `B`. -/
theorem C4_upstream_error_passthrough
    (upstream : Request → FetchOutcome) (body prompt systemPrompt : Js)
    (apiKey B : String) (N : Nat) (jsr : Except String Js)
    (hp : jsGetProp body "prompt" = .ok prompt)
    (hs : jsGetProp body "systemPrompt" = .ok systemPrompt)
    (ht : prompt.truthy = true)
    (hk : apiKey ≠ "")
    (hup : ∀ q, upstream q = .resp N B jsr)
    (hN : ¬ (200 ≤ N ∧ N < 300)) :
    ∃ r, handler ⟨some apiKey⟩ upstream ⟨"POST", .ok body⟩ = .ok r ∧
      r.response.statusCode = N ∧
      r.response.body = "Gemini API Error: " ++ B ∧
      containsStr r.response.body B = true := by
  refine ⟨⟨⟨N, [], "Gemini API Error: " ++ B⟩,
    some ⟨apiUrlPrefix ++ apiKey, "POST", [("Content-Type", "application/json")],
      mkPayload prompt systemPrompt⟩,
    ["Gemini API error: " ++ toString N ++ " " ++ B]⟩, ?_, rfl, rfl, containsStr_append _ _⟩
  simp only [handler, hp, hs, ht, hk, hup]
  simp [callUpstream, hN]

/-- Witness for C4: the spec's stubbed 429 with body "rate limited". -/
theorem C4_witness :
    ∃ r, handler ⟨some "k"⟩ (fun _ => .resp 429 "rate limited" (.error "x"))
        ⟨"POST", .ok (Js.obj [("prompt", Js.str "hello")])⟩ = .ok r ∧
      r.response.statusCode = 429 ∧
      r.response.body = "Gemini API Error: " ++ "rate limited" ∧
      containsStr r.response.body "rate limited" = true :=
  C4_upstream_error_passthrough (fun _ => .resp 429 "rate limited" (.error "x"))
    (Js.obj [("prompt", Js.str "hello")]) (Js.str "hello") Js.undefined
    "k" "rate limited" 429 (.error "x") rfl rfl rfl (by decide) (fun _ => rfl) (by decide)

/-- Counterexample to C5 as stated: the body `null` is valid JSON lacking a
truthy prompt, yet the handler does not return 400 — the destructuring on
source line 32 throws an uncaught TypeError. -/
theorem C5_counterexample :
    handler ⟨none⟩ (fun _ => .netErr "") ⟨"POST", .ok Js.null⟩ =
      .error (readErrMsg "null" "prompt") := rfl

/-- C5 (amended): for every POST whose body parses to a JSON value other
than `null` and lacks a truthy `prompt`, the handler returns status exactly
400, under any configuration and upstream. -/
theorem C5_falsy_prompt_400 (env : Env) (upstream : Request → FetchOutcome) (body : Js)
    (hnn : body ≠ .null) (hnu : body ≠ .undefined)
    (hft : (jsProp body "prompt").truthy = false) :
    handler env upstream ⟨"POST", .ok body⟩ =
      .ok ⟨⟨400, [], promptRequiredBody⟩, none, []⟩ := by
  cases body
  case null => exact absurd rfl hnn
  case undefined => exact absurd rfl hnu
  all_goals simp_all [handler, jsGetProp, jsProp]

/-- Witness for C5 (amended): an object body with no `prompt` field. -/
theorem C5_witness :
    handler ⟨none⟩ (fun _ => .netErr "") ⟨"POST", .ok (Js.obj [])⟩ =
      .ok ⟨⟨400, [], promptRequiredBody⟩, none, []⟩ :=
  C5_falsy_prompt_400 ⟨none⟩ (fun _ => .netErr "") (Js.obj [])
    (fun h => Js.noConfusion h) (fun h => Js.noConfusion h) rfl

theorem extractFirstText_none (result : Js)
    (hnn : result ≠ .null) (hnu : result ≠ .undefined)
    (hc : jsProp result "candidates" = Js.arr [] ∨ jsProp result "candidates" = Js.undefined) :
    extractFirstText result = .ok none := by
  rcases hc with h | h <;>
    cases result <;>
      simp_all [extractFirstText, jsGetProp, jsProp, Js.truthy, jsGtZero, jsToNumber]

/-- Counterexample to C6 as stated: a successful upstream response whose
JSON body is `null` contains no candidates, yet the handler's reply is not
the fixed no-candidates message — the property read throws and the catch
block embeds the TypeError message instead. -/
theorem C6_counterexample :
    handler ⟨some "k"⟩ (fun _ => .resp 200 "null" (.ok .null))
        ⟨"POST", .ok (Js.obj [("prompt", Js.str "hello")])⟩ =
      .ok ⟨⟨500, [], "Internal Server Error: " ++ readErrMsg "null" "candidates"⟩,
        some ⟨apiUrlPrefix ++ "k", "POST", [("Content-Type", "application/json")],
          mkPayload (Js.str "hello") Js.undefined⟩,
        ["Error calling Gemini API: " ++ readErrMsg "null" "candidates"]⟩ ∧
    "Internal Server Error: " ++ readErrMsg "null" "candidates" ≠ noCandidatesBody :=
  ⟨rfl, by decide⟩

/-- C6 (amended): for every successful upstream response whose parsed JSON
body is not `null` and whose candidate list is empty or absent, the handler
returns status 500 with the fixed no-candidates message. -/
theorem C6_no_candidates_500
    (upstream : Request → FetchOutcome) (body prompt systemPrompt result : Js)
    (apiKey uptext : String)
    (hp : jsGetProp body "prompt" = .ok prompt)
    (hs : jsGetProp body "systemPrompt" = .ok systemPrompt)
    (ht : prompt.truthy = true)
    (hk : apiKey ≠ "")
    (hup : ∀ q, upstream q = .resp 200 uptext (.ok result))
    (hnn : result ≠ .null) (hnu : result ≠ .undefined)
    (hc : jsProp result "candidates" = Js.arr [] ∨ jsProp result "candidates" = Js.undefined) :
    ∃ r, handler ⟨some apiKey⟩ upstream ⟨"POST", .ok body⟩ = .ok r ∧
      r.response.statusCode = 500 ∧ r.response.body = noCandidatesBody := by
  refine ⟨⟨⟨500, [], noCandidatesBody⟩,
    some ⟨apiUrlPrefix ++ apiKey, "POST", [("Content-Type", "application/json")],
      mkPayload prompt systemPrompt⟩, []⟩, ?_, rfl, rfl⟩
  simp only [handler, hp, hs, ht, hk, hup]
  simp [callUpstream, extractFirstText_none result hnn hnu hc]

/-- Witness for C6 (amended): the spec's stub returning an empty candidate
list. -/
theorem C6_witness :
    ∃ r, handler ⟨some "k"⟩
        (fun _ => .resp 200 "" (.ok (Js.obj [("candidates", Js.arr [])])))
        ⟨"POST", .ok (Js.obj [("prompt", Js.str "hello")])⟩ = .ok r ∧
      r.response.statusCode = 500 ∧ r.response.body = noCandidatesBody :=
  C6_no_candidates_500 (fun _ => .resp 200 "" (.ok (Js.obj [("candidates", Js.arr [])])))
    (Js.obj [("prompt", Js.str "hello")]) (Js.str "hello") Js.undefined
    (Js.obj [("candidates", Js.arr [])]) "k" "" rfl rfl rfl (by decide) (fun _ => rfl)
    (fun h => Js.noConfusion h) (fun h => Js.noConfusion h) (Or.inl rfl)

/-- Counterexample to C7 as stated: on a GET request the response body is
the reason phrase "Method Not Allowed", not empty. -/
theorem C7_counterexample :
    handler ⟨none⟩ (fun _ => .netErr "") ⟨"GET", .error "x"⟩ =
      .ok ⟨⟨405, [], methodNotAllowedBody⟩, none, []⟩ ∧
    methodNotAllowedBody ≠ "" :=
  ⟨rfl, by decide⟩

/-- C7 (amended): for every non-POST request, under any configuration,
body, and upstream, the handler returns exactly status 405 with body
"Method Not Allowed", no outbound call and no log — in particular the
result does not depend on the body, the configuration, or the upstream. -/
theorem C7_non_post_405 (env : Env) (upstream : Request → FetchOutcome)
    (m : String) (bj : Except String Js) (hm : m ≠ "POST") :
    handler env upstream ⟨m, bj⟩ =
      .ok ⟨⟨405, [], methodNotAllowedBody⟩, none, []⟩ := by
  simp [handler, hm]

/-- Witness for C7 (amended) at a concrete GET request. -/
theorem C7_witness :
    handler ⟨some "secret"⟩ (fun _ => .netErr "") ⟨"GET", .ok (Js.obj [])⟩ =
      .ok ⟨⟨405, [], methodNotAllowedBody⟩, none, []⟩ :=
  C7_non_post_405 ⟨some "secret"⟩ (fun _ => .netErr "") "GET" (.ok (Js.obj []))
    (by decide)

/-- C8: for every POST whose body is not valid JSON, under any
configuration and upstream, the handler returns exactly status 400 with the
descriptive message, making no outbound call and writing no log. -/
theorem C8_invalid_json_400 (env : Env) (upstream : Request → FetchOutcome) (e : String) :
    handler env upstream ⟨"POST", .error e⟩ =
      .ok ⟨⟨400, [], invalidJsonBody⟩, none, []⟩ := by
  simp [handler]

/-- C9: when the upstream call itself fails with a transport error, the
handler returns status 500 with the error's message embedded in the body. -/
theorem C9_transport_error_500
    (upstream : Request → FetchOutcome) (body prompt systemPrompt : Js)
    (apiKey msg : String)
    (hp : jsGetProp body "prompt" = .ok prompt)
    (hs : jsGetProp body "systemPrompt" = .ok systemPrompt)
    (ht : prompt.truthy = true)
    (hk : apiKey ≠ "")
    (hup : ∀ q, upstream q = .netErr msg) :
    ∃ r, handler ⟨some apiKey⟩ upstream ⟨"POST", .ok body⟩ = .ok r ∧
      r.response.statusCode = 500 ∧
      r.response.body = "Internal Server Error: " ++ msg := by
  refine ⟨caughtResult ⟨apiUrlPrefix ++ apiKey, "POST", [("Content-Type", "application/json")],
    mkPayload prompt systemPrompt⟩ msg, ?_, rfl, rfl⟩
  simp only [handler, hp, hs, ht, hk, hup]
  simp [callUpstream]

/-- Witness for C9 at a concrete request whose upstream rejects with
message "socket hang up". -/
theorem C9_witness :
    ∃ r, handler ⟨some "k"⟩ (fun _ => .netErr "socket hang up")
        ⟨"POST", .ok (Js.obj [("prompt", Js.str "hello")])⟩ = .ok r ∧
      r.response.statusCode = 500 ∧
      r.response.body = "Internal Server Error: " ++ "socket hang up" :=
  C9_transport_error_500 (fun _ => .netErr "socket hang up")
    (Js.obj [("prompt", Js.str "hello")]) (Js.str "hello") Js.undefined
    "k" "socket hang up" rfl rfl rfl (by decide) (fun _ => rfl)

/-- C10: when the upstream responds 200 but the first candidate's shape
makes the extraction of `candidates[0].content.parts[0].text` throw, the
handler does not reject: the error is caught and answered as a 500 whose
body embeds the internal error's message. -/
theorem C10_malformed_candidate_caught
    (upstream : Request → FetchOutcome) (body prompt systemPrompt result : Js)
    (apiKey uptext msg : String)
    (hp : jsGetProp body "prompt" = .ok prompt)
    (hs : jsGetProp body "systemPrompt" = .ok systemPrompt)
    (ht : prompt.truthy = true)
    (hk : apiKey ≠ "")
    (hup : ∀ q, upstream q = .resp 200 uptext (.ok result))
    (he : extractFirstText result = .error msg) :
    ∃ r, handler ⟨some apiKey⟩ upstream ⟨"POST", .ok body⟩ = .ok r ∧
      r.response.statusCode = 500 ∧
      r.response.body = "Internal Server Error: " ++ msg := by
  refine ⟨caughtResult ⟨apiUrlPrefix ++ apiKey, "POST", [("Content-Type", "application/json")],
    mkPayload prompt systemPrompt⟩ msg, ?_, rfl, rfl⟩
  simp only [handler, hp, hs, ht, hk, hup]
  simp [callUpstream, he]

/-- Witness for C10: one candidate that is a bare number, so `.content`
reads `undefined` and `.parts` throws. -/
theorem C10_witness :
    ∃ r, handler ⟨some "k"⟩
        (fun _ => .resp 200 "" (.ok (Js.obj [("candidates", Js.arr [Js.num 1])])))
        ⟨"POST", .ok (Js.obj [("prompt", Js.str "hello")])⟩ = .ok r ∧
      r.response.statusCode = 500 ∧
      r.response.body = "Internal Server Error: " ++ readErrMsg "undefined" "parts" :=
  C10_malformed_candidate_caught
    (fun _ => .resp 200 "" (.ok (Js.obj [("candidates", Js.arr [Js.num 1])])))
    (Js.obj [("prompt", Js.str "hello")]) (Js.str "hello") Js.undefined
    (Js.obj [("candidates", Js.arr [Js.num 1])]) "k" ""
    (readErrMsg "undefined" "parts") rfl rfl rfl (by decide) (fun _ => rfl) rfl

end GeminiProxy
